import Mathlib

/-!
Verification development for the topology-construction core of desctopo.py
(mrnes-refactor).

Modelling conventions.

The module-level mutable globals of the source (the numberOf counters and the
dictionaries objTypeByName, devByName, netByName, rtrByName, devConnected) are
fields of one explicit state record, PyState.  Functions that only read a
counter (such as DefaultIntrfcName call sites) see the module-level value; the
constructors, however, assign their counter without a global declaration,
which under CPython scoping makes the name function-local and raises
UnboundLocalError on the read — these crashes are modelled exactly.
Likewise, NetDevice is an abstract base class whose abstract method
DevAddIntrfc is implemented only by RouterFrameClass, so instantiating
EndptFrameClass, SwitchFrameClass or NetworkFrameClass raises TypeError;
the corresponding constructors are modelled as failing at instantiation.
Methods are modelled on arbitrary heap states: several properties quantify
over frames that the crashing constructors cannot themselves produce, so the
states exercising the methods are built directly.

Python objects live in heaps: interface frames, device frames and network
frames are rows of three lists inside PyState, addressed by index.  Python
reference equality is index equality; attribute mutation is a row update.
Dictionaries are association lists with overwrite-on-insert (setA) and
first-match lookup (lookupA).

Uncaught Python exceptions are modelled as the error case of Except:
KeyError for a missing dictionary key, UnboundLocalError for a read of a local
variable on a path that never assigned it, TypeError for instantiating an
abstract class or for a call with the wrong arity.  No claim observes the
state carried past an uncaught exception, so an error outcome carries no
state.

The three device classes (EndptFrameClass, RouterFrameClass, SwitchFrameClass)
share one row type DevFrame with a kind tag; their methods DevName and DevID
both return the Name field in the source, modelled by devNm.
-/

/-- Association-list lookup: first binding wins (models Python dict lookup,
given that setA overwrites in place). -/
def lookupA {α : Type} (k : String) : List (String × α) → Option α
  | [] => none
  | (k1, v) :: t => if k1 = k then some v else lookupA k t

/-- Association-list insert with overwrite (models Python dict assignment). -/
def setA {α : Type} (k : String) (v : α) : List (String × α) → List (String × α)
  | [] => [(k, v)]
  | (k1, v1) :: t => if k1 = k then (k, v) :: t else (k1, v1) :: setA k v t

/-- Heap read at an index, with a default row for an out-of-range index. -/
def hget {α : Type} : List α → Nat → α → α
  | [], _, d => d
  | x :: _, 0, _ => x
  | _ :: t, n + 1, d => hget t n d

/-- Heap update at an index by a function; out of range leaves the heap alone. -/
def hset {α : Type} : List α → Nat → (α → α) → List α
  | [], _, _ => []
  | x :: t, 0, f => f x :: t
  | x :: t, n + 1, f => x :: hset t n f

/-- Interface frame (IntrfcFrameClass): Cable, Carry, Wireless hold references
to other interface frames, modelled as heap indices. -/
structure IntrfcFrame where
  Name : String
  Groups : List String
  DevType : String
  MediaType : String
  Device : String
  Cable : Option Nat
  Carry : List Nat
  Wireless : List Nat
  Faces : String
  deriving DecidableEq, Repr

/-- Kind tag distinguishing the three device frame classes of the source. -/
inductive DevKind
  | Endpt
  | Router
  | Switch
  deriving DecidableEq, Repr

/-- Device frame (EndptFrameClass / RouterFrameClass / SwitchFrameClass):
Interfaces holds references to interface frames, modelled as heap indices. -/
structure DevFrame where
  kind : DevKind
  Name : String
  Groups : List String
  Model : String
  Cores : Nat
  Interfaces : List Nat
  deriving DecidableEq, Repr

/-- Network frame (NetworkFrameClass): the membership lists hold references to
device frames, modelled as heap indices. -/
structure NetworkFrame where
  Name : String
  Groups : List String
  NetScale : String
  MediaType : String
  Routers : List Nat
  Endpts : List Nat
  Switches : List Nat
  deriving DecidableEq, Repr

/-- The module-level mutable state of desctopo.py plus the three object heaps. -/
structure PyState where
  numberOfIntrfcs : Nat
  numberOfRouters : Nat
  numberOfSwitches : Nat
  numberOfEndpts : Nat
  objTypeByName : List (String × String)
  devByName : List (String × Nat)
  netByName : List (String × Nat)
  rtrByName : List (String × Nat)
  devConnected : List (String × List String)
  intrfcs : List IntrfcFrame
  devs : List DevFrame
  nets : List NetworkFrame
  deriving DecidableEq, Repr

/-- Uncaught Python exceptions. -/
inductive PyErr
  | keyError : String → PyErr
  | unboundLocal : String → PyErr
  | typeError : String → PyErr
  deriving DecidableEq, Repr

/-- The state of the module right after import: empty dictionaries, zero
counters, empty heaps. -/
def emptyState : PyState :=
  { numberOfIntrfcs := 0, numberOfRouters := 0, numberOfSwitches := 0,
    numberOfEndpts := 0, objTypeByName := [], devByName := [], netByName := [],
    rtrByName := [], devConnected := [], intrfcs := [], devs := [], nets := [] }

/-- Default row used by hget for interface reads. -/
def dfltIntrfc : IntrfcFrame :=
  { Name := "", Groups := [], DevType := "", MediaType := "", Device := "",
    Cable := none, Carry := [], Wireless := [], Faces := "" }

/-- Default row used by hget for device reads. -/
def dfltDev : DevFrame :=
  { kind := .Endpt, Name := "", Groups := [], Model := "", Cores := 0,
    Interfaces := [] }

/-- Default row used by hget for network reads. -/
def dfltNet : NetworkFrame :=
  { Name := "", Groups := [], NetScale := "", MediaType := "", Routers := [],
    Endpts := [], Switches := [] }

/-- Read an interface frame from the heap. -/
def getIntrfc (s : PyState) (i : Nat) : IntrfcFrame := hget s.intrfcs i dfltIntrfc

/-- Read a device frame from the heap. -/
def getDev (s : PyState) (i : Nat) : DevFrame := hget s.devs i dfltDev

/-- Read a network frame from the heap. -/
def getNet (s : PyState) (i : Nat) : NetworkFrame := hget s.nets i dfltNet

/-- Mutate an interface frame in place. -/
def updIntrfc (s : PyState) (i : Nat) (f : IntrfcFrame → IntrfcFrame) : PyState :=
  { s with intrfcs := hset s.intrfcs i f }

/-- Mutate a device frame in place. -/
def updDev (s : PyState) (i : Nat) (f : DevFrame → DevFrame) : PyState :=
  { s with devs := hset s.devs i f }

/-- Mutate a network frame in place. -/
def updNet (s : PyState) (i : Nat) (f : NetworkFrame → NetworkFrame) : PyState :=
  { s with nets := hset s.nets i f }

/-- DevName and DevID of every device class return the Name field. -/
def devNm (s : PyState) (i : Nat) : String := (getDev s i).Name

/-- DevType of each device class returns its fixed kind string. -/
def devTy (s : PyState) (i : Nat) : String :=
  match (getDev s i).kind with
  | .Endpt => "Endpt"
  | .Router => "Router"
  | .Switch => "Switch"

/-- Source endptPresent: name-based membership of a device in a list of
endpoint frames (references modelled as indices). -/
def endptPresent (s : PyState) (l : List Nat) (d : Nat) : Bool :=
  l.any (fun x => devNm s x == devNm s d)

/-- Source routerPresent: name-based membership in a list of router frames. -/
def routerPresent (s : PyState) (l : List Nat) (d : Nat) : Bool :=
  l.any (fun x => devNm s x == devNm s d)

/-- Source DefaultIntrfcName, reading the interface counter. -/
def DefaultIntrfcName (device : String) (n : Nat) : String :=
  "intrfc@" ++ device ++ "[." ++ toString n ++ "]"

/-- Source DefaultEndptName, reading the endpoint counter. -/
def DefaultEndptName (etype : String) (n : Nat) : String :=
  etype ++ "-endpt.(" ++ toString n ++ ")"

/-- Source DefaultRouterName, reading the router counter. -/
def DefaultRouterName (n : Nat) : String :=
  "rtr.[" ++ toString n ++ "]"

/-- Source DefaultSwitchName, reading the switch counter. -/
def DefaultSwitchName (nm : String) (n : Nat) : String :=
  "switch(" ++ nm ++ ")." ++ toString n

/-- Source CreateIntrfc (lines 250-286).  IntrfcFrameClass is a plain class, so
line 251 instantiates it; line 254 then executes numberOfIntrfcs += 1 with no
global declaration, which makes the name function-local and reads it before
assignment: UnboundLocalError on the counter, on every call and for every
device type.  Lines 256-286 — including the router-membership block of lines
277-284, which is itself dedented out of the Router branch — are unreachable
dead code, so the constructor never builds an interface and never touches a
network's Routers list. -/
def CreateIntrfc (_device _name _devType _mediaType _faces : String)
    (_s : PyState) : Except PyErr (PyState × Nat) :=
  .error (.unboundLocal "numberOfIntrfcs")

/-- Source CreateEndpt (lines 425-443).  EndptFrameClass subclasses the ABC
NetDevice but never implements the abstract method DevAddIntrfc, so the
instantiation on line 426 raises TypeError before the counter line 427 (which
would itself raise UnboundLocalError) and before any registry assignment; the
constructor never completes and never registers a name. -/
def CreateEndpt (_name _etype _model : String) (_cores : Nat) (_s : PyState) :
    Except PyErr (PyState × Nat) :=
  .error (.typeError "EndptFrameClass")

/-- Source CreateRouter (lines 545-561).  RouterFrameClass implements all five
abstract methods of NetDevice, so line 546 instantiates it; line 547 then
executes numberOfRouters = numberOfRouters + 1 with no global declaration,
reading the function-local name before assignment: UnboundLocalError on the
counter, before any registry assignment. -/
def CreateRouter (_name _model : String) (_s : PyState) :
    Except PyErr (PyState × Nat) :=
  .error (.unboundLocal "numberOfRouters")

/-- Source CreateSwitch (lines 636-651).  SwitchFrameClass never implements the
abstract method DevAddIntrfc, so the instantiation on line 637 raises
TypeError before the counter line 638 and before any registry assignment. -/
def CreateSwitch (_name _model : String) (_s : PyState) :
    Except PyErr (PyState × Nat) :=
  .error (.typeError "SwitchFrameClass")

/-- Source CreateNetwork (lines 856-865).  NetworkFrameClass never implements
the abstract method DevAddIntrfc, so the instantiation on line 857 raises
TypeError; the constructor never fills a frame and never registers the name in
objTypeByName or netByName. -/
def CreateNetwork (_name _NetScale _MediaType : String) (_s : PyState) :
    Except PyErr (PyState × Nat) :=
  .error (.typeError "NetworkFrameClass")

/-- Source NetworkFrameClass.AddGroup (lines 719-721), exactly as written: the
guard appends only when the group name is already present. -/
def NetworkFrame.AddGroup (n : NetworkFrame) (groupName : String) : NetworkFrame :=
  if groupName ∈ n.Groups then { n with Groups := n.Groups ++ [groupName] } else n

/-- Source NetworkFrameClass.FacedBy (lines 708-715): true when some interface
of the device faces this network, compared by network name. -/
def FacedBy (s : PyState) (netId devId : Nat) : Bool :=
  (getDev s devId).Interfaces.any
    (fun i => (getIntrfc s i).Faces == (getNet s netId).Name)

/-- The dispatch on the device type at the end of IncludeDev (source lines
754-772): attach a created interface to the device, then add the device to the
matching membership list of the network if the present check (by name) fails.
On the Switch arm the source calls switchPresent with a single argument
(line 771), a TypeError.  A device type matching no case falls through the
Python match statement, which then returns None. -/
def includeAttach (s1 : PyState) (netId devId : Nat) (devType : String)
    (intrfc : Option Nat) : Except PyErr (PyState × Option String) :=
  match devType with
  | "Endpt" =>
    let s2 := match intrfc with
      | some iid =>
          updDev s1 devId (fun d => { d with Interfaces := d.Interfaces ++ [iid] })
      | none => s1
    let s3 := if endptPresent s2 (getNet s2 netId).Endpts devId then s2
              else updNet s2 netId (fun n => { n with Endpts := n.Endpts ++ [devId] })
    .ok (s3, none)
  | "Router" =>
    let s2 := match intrfc with
      | some iid =>
          updDev s1 devId (fun d => { d with Interfaces := d.Interfaces ++ [iid] })
      | none => s1
    let s3 := if routerPresent s2 (getNet s2 netId).Routers devId then s2
              else updNet s2 netId (fun n => { n with Routers := n.Routers ++ [devId] })
    .ok (s3, none)
  | "Switch" =>
    let _s2 := match intrfc with
      | some iid =>
          updDev s1 devId (fun d => { d with Interfaces := d.Interfaces ++ [iid] })
      | none => s1
    .error (.typeError "switchPresent")
  | _ => .ok (s1, none)

/-- Source NetworkFrameClass.IncludeDev (lines 736-774).  Returns the Python
returnError value (an error string or None) on normal completion.  If an
interface has to be created, CreateIntrfc is called with a default name built
from the module-level counter; that call raises UnboundLocalError on
numberOfIntrfcs (see CreateIntrfc).  The tail of the method is the
includeAttach dispatch above. -/
def IncludeDev (s : PyState) (netId devId : Nat) (mediaType : String)
    (chkIntrfc : Bool) : Except PyErr (PyState × Option String) :=
  let devName := devNm s devId
  let devType := devTy s devId
  if mediaType == "wireless" && !((getNet s netId).MediaType == "wireless") then
    .ok (s, some "including a wireless device in a wired network")
  else
    if chkIntrfc && !(FacedBy s netId devId) then
      match CreateIntrfc devName (DefaultIntrfcName devName s.numberOfIntrfcs)
          devType mediaType (getNet s netId).Name s with
      | .error e => .error e
      | .ok (s1, iid) => includeAttach s1 netId devId devType (some iid)
    else includeAttach s netId devId devType none

/-- Source NetworkFrameClass.AddRouter (lines 777-793): silently does nothing
when a router of the same name is stored, errors when the router has no
interface facing the network, appends otherwise. -/
def AddRouter (s : PyState) (netId rtrId : Nat) : PyState × Option String :=
  let found := (getNet s netId).Routers.any (fun r => devNm s r == devNm s rtrId)
  if found then (s, none)
  else if !(FacedBy s netId rtrId) then
    (s, some ("attempting to add router " ++ devNm s rtrId ++ " to network "
      ++ (getNet s netId).Name ++ " without prior association of an interface"))
  else (updNet s netId (fun n => { n with Routers := n.Routers ++ [rtrId] }), none)

/-- Source NetworkFrameClass.AddSwitch (lines 797-813), exactly as written: the
loop variable shadows the argument and the guard compares a stored name with
itself, so found is true whenever the Switches list is nonempty; when the list
is empty the loop never runs and the argument is used. -/
def AddSwitch (s : PyState) (netId swId : Nat) : PyState × Option String :=
  let found := (getNet s netId).Switches.any (fun sw => devNm s sw == devNm s sw)
  if found then (s, none)
  else if !(FacedBy s netId swId) then
    (s, some ("attempting to add switch " ++ devNm s swId ++ " to network "
      ++ (getNet s netId).Name ++ " without prior association of an interface"))
  else (updNet s netId (fun n => { n with Switches := n.Switches ++ [swId] }), none)

/-- Entries of the Carry and Wireless lists of a serialized interface
descriptor.  Python lists are untyped: the entry is either a name string or a
reference to an interface frame, whichever the code actually appends. -/
inductive DescEntry
  | name : String → DescEntry
  | ref : Nat → DescEntry
  deriving DecidableEq, Repr

/-- Serializable interface descriptor (IntrfcDescClass). -/
structure IntrfcDesc where
  Name : String
  Groups : List String
  DevType : String
  MediaType : String
  Device : String
  Cable : Option String
  Carry : List DescEntry
  Wireless : List DescEntry
  Faces : String
  deriving DecidableEq, Repr

/-- Source IntrfcFrameClass.Transform (lines 190-216): the Cable reference is
replaced by the name of the cabled interface; the loops over Carry and
Wireless append the interface references themselves (lines 210-214 append
carry, not the Name attribute of carry). -/
def IntrfcFrame.Transform (s : PyState) (i : Nat) : IntrfcDesc :=
  let f := getIntrfc s i
  { Device := f.Device, Name := f.Name, DevType := f.DevType,
    MediaType := f.MediaType, Faces := f.Faces, Groups := f.Groups,
    Cable := match f.Cable with
      | some c => some (getIntrfc s c).Name
      | none => none,
    Carry := f.Carry.map DescEntry.ref,
    Wireless := f.Wireless.map DescEntry.ref }

/-- Source isConnected (lines 870-881), reading the devConnected dictionary. -/
def isConnected (id1 id2 : String) (dc : List (String × List String)) : Bool :=
  match lookupA id1 dc with
  | none => false
  | some peers => peers.any (fun p => p == id2)

/-- Source markConnected (lines 885-901): records the connection in both
directions, creating the per-device lists on demand. -/
def markConnected (id1 id2 : String) (s : PyState) : PyState :=
  if isConnected id1 id2 s.devConnected then s
  else
    let l1 := (lookupA id1 s.devConnected).getD []
    let s1 : PyState := { s with devConnected := setA id1 (l1 ++ [id2]) s.devConnected }
    let l2 := (lookupA id2 s1.devConnected).getD []
    { s1 with devConnected := setA id2 (l2 ++ [id1]) s1.devConnected }

/-- Source carryContained (lines 904-910): whether intrfc1 is in the Carry list
of intrfc2, by reference or by name. -/
def carryContained (s : PyState) (i1 i2 : Nat) : Bool :=
  (getIntrfc s i2).Carry.any
    (fun j => j == i1 || (getIntrfc s j).Name == (getIntrfc s i1).Name)

/-- Inner loop of the cable-mode reuse search of ConnectDevs (lines 942-954)
for a fixed interface of dev1: skips a pair when intrfc1 is cabled elsewhere,
matches when intrfc2 is uncabled or cabled back to intrfc1. -/
def cableScanInner (s : PyState) (i1 : Nat) : List Nat → Option Nat
  | [] => none
  | i2 :: rest =>
    if !((getIntrfc s i1).Cable == none) && !((getIntrfc s i1).Cable == some i2) then
      cableScanInner s i1 rest
    else if (getIntrfc s i2).Cable == some i1 || (getIntrfc s i2).Cable == none then
      some i2
    else cableScanInner s i1 rest

/-- Outer loop of the cable-mode reuse search: first matching pair in pool
order. -/
def cableScan (s : PyState) : List Nat → List Nat → Option (Nat × Nat)
  | [], _ => none
  | i1 :: rest, pool2 =>
    match cableScanInner s i1 pool2 with
    | some i2 => some (i1, i2)
    | none => cableScan s rest pool2

/-- Inner loop of the carry-mode search of ConnectDevs (lines 957-964) for a
fixed interface of dev1, exactly as written: when intrfc1 is already in the
Carry list of intrfc2 and not conversely, the source appends intrfc1 to the
Carry list of intrfc2 again (lines 959-961); symmetrically for the other
branch (lines 962-964). -/
def carryScanInner (s : PyState) (i1 : Nat) : List Nat → Option PyState
  | [] => none
  | i2 :: rest =>
    if carryContained s i1 i2 && !(carryContained s i2 i1) then
      some (updIntrfc s i2 (fun f => { f with Carry := f.Carry ++ [i1] }))
    else if carryContained s i2 i1 && !(carryContained s i1 i2) then
      some (updIntrfc s i1 (fun f => { f with Carry := f.Carry ++ [i2] }))
    else carryScanInner s i1 rest

/-- Outer loop of the carry-mode search: first matching pair in pool order. -/
def carryScan (s : PyState) : List Nat → List Nat → Option PyState
  | [], _ => none
  | i1 :: rest, pool2 =>
    match carryScanInner s i1 pool2 with
    | some t => some t
    | none => carryScan s rest pool2

/-- The DevAddIntrfc dispatch of the source.  Only RouterFrameClass implements
it (line 505, delegating to AddIntrfc, whose returned error string ConnectDevs
drops); on the other device classes the call resolves to the abstract method
body of NetDevice, which is pass. -/
def devAddIntrfc (s : PyState) (d iid : Nat) : PyState :=
  match (getDev s d).kind with
  | .Router =>
    if (getDev s d).Interfaces.any
        (fun ih => ih == iid || (getIntrfc s ih).Name == (getIntrfc s iid).Name) then s
    else
      let s1 := updIntrfc s iid
        (fun f => { f with DevType := "Router", Device := devNm s d })
      updDev s1 d (fun dv => { dv with Interfaces := dv.Interfaces ++ [iid] })
  | _ => s

/-- Final linkage of ConnectDevs (lines 999-1004): cable the two free
interfaces to each other, or append each to the Carry list of the other. -/
def linkFree (cable : Bool) (s : PyState) (f1 f2 : Nat) : PyState :=
  if cable then
    updIntrfc (updIntrfc s f1 (fun f => { f with Cable := some f2 })) f2
      (fun f => { f with Cable := some f1 })
  else
    updIntrfc (updIntrfc s f1 (fun f => { f with Carry := f.Carry ++ [f2] })) f2
      (fun f => { f with Carry := f.Carry ++ [f1] })

/-- Second half of the free-interface phase of ConnectDevs (lines 986-1004):
find or create a free interface on dev2, then link. -/
def freePhase2 (d2 : Nat) (cable : Bool) (faces : String) (pool2 : List Nat)
    (s : PyState) (f1 : Nat) : Except PyErr PyState :=
  match pool2.find? (fun i =>
      (getIntrfc s i).Faces == faces && (getIntrfc s i).Cable == none) with
  | some f2 => .ok (linkFree cable s f1 f2)
  | none =>
    match CreateIntrfc (devNm s d2) (DefaultIntrfcName (devNm s d2) s.numberOfIntrfcs)
        (devTy s d2) "wired" faces s with
    | .error e => .error e
    | .ok (s1, f2) => .ok (linkFree cable (devAddIntrfc s1 d2 f2) f1 f2)

/-- Free-interface phase of ConnectDevs (lines 969-1004): find or create a free
interface on dev1, then handle dev2. -/
def freePhase (d1 d2 : Nat) (cable : Bool) (faces : String)
    (pool1 pool2 : List Nat) (s : PyState) : Except PyErr PyState :=
  match pool1.find? (fun i =>
      (getIntrfc s i).Faces == faces && (getIntrfc s i).Cable == none) with
  | some f1 => freePhase2 d2 cable faces pool2 s f1
  | none =>
    match CreateIntrfc (devNm s d1) (DefaultIntrfcName (devNm s d1) s.numberOfIntrfcs)
        (devTy s d1) "wired" faces s with
    | .error e => .error e
    | .ok (s1, f1) => freePhase2 d2 cable faces pool2 (devAddIntrfc s1 d1 f1) f1

/-- Body of ConnectDevs after the idempotence guard and the markConnected call
(lines 922-1004): resolve the network, include both devices, build the
candidate pools (interfaces facing the network and not wireless), try to reuse
an existing pair, and otherwise go to the free-interface phase.  The return
values of the IncludeDev calls are dropped by the source; exceptions
propagate. -/
def connectBody (d1 d2 : Nat) (cable : Bool) (faces : String) (s : PyState) :
    Except PyErr PyState :=
  match lookupA faces s.netByName with
  | none => .error (.keyError faces)
  | some netId =>
    match IncludeDev s netId d1 "wired" true with
    | .error e => .error e
    | .ok (s1, _) =>
      match IncludeDev s1 netId d2 "wired" true with
      | .error e => .error e
      | .ok (s2, _) =>
        let pool2 := (getDev s2 d2).Interfaces.filter (fun i =>
          (getIntrfc s2 i).Faces == faces && !((getIntrfc s2 i).MediaType == "wireless"))
        let pool1 := (getDev s2 d1).Interfaces.filter (fun i =>
          (getIntrfc s2 i).Faces == faces && !((getIntrfc s2 i).MediaType == "wireless"))
        if cable then
          match cableScan s2 pool1 pool2 with
          | some (i1, i2) =>
            .ok (updIntrfc (updIntrfc s2 i1 (fun f => { f with Cable := some i2 })) i2
              (fun f => { f with Cable := some i1 }))
          | none => freePhase d1 d2 cable faces pool1 pool2 s2
        else
          match carryScan s2 pool1 pool2 with
          | some s3 => .ok s3
          | none => freePhase d1 d2 cable faces pool1 pool2 s2

/-- Source ConnectDevs (lines 914-1004): a no-op when the pairwise-connectivity
index already marks the two device identities connected, otherwise record the
pair and run the body. -/
def ConnectDevs (d1 d2 : Nat) (cable : Bool) (faces : String) (s : PyState) :
    Except PyErr PyState :=
  if isConnected (devNm s d1) (devNm s d2) s.devConnected then .ok s
  else connectBody d1 d2 cable faces (markConnected (devNm s d1) (devNm s d2) s)

/-- Topology configuration frame (TopoCfgFrameClass): the four object lists
hold references, modelled as indices into the device and network heaps. -/
structure TopoCfgFrame where
  Name : String
  Endpts : List Nat
  Networks : List Nat
  Routers : List Nat
  Switches : List Nat
  deriving DecidableEq, Repr

/-- Source TopoCfgFrameClass.addRouter (lines 1028-1033): append unless already
present by reference or by name. -/
def tAddRouter (s : PyState) (t : TopoCfgFrame) (r : Nat) : TopoCfgFrame :=
  if t.Routers.any (fun st => st == r || devNm s st == devNm s r) then t
  else { t with Routers := t.Routers ++ [r] }

/-- Source TopoCfgFrameClass.addEndpt (lines 1012-1017). -/
def tAddEndpt (s : PyState) (t : TopoCfgFrame) (e : Nat) : TopoCfgFrame :=
  if t.Endpts.any (fun st => st == e || devNm s st == devNm s e) then t
  else { t with Endpts := t.Endpts ++ [e] }

/-- Source TopoCfgFrameClass.addSwitch (lines 1036-1041). -/
def tAddSwitch (s : PyState) (t : TopoCfgFrame) (w : Nat) : TopoCfgFrame :=
  if t.Switches.any (fun st => st == w || devNm s st == devNm s w) then t
  else { t with Switches := t.Switches ++ [w] }

/-- Source TopoCfgFrameClass.Consolidate (lines 1046-1064): error on an empty
Networks list, otherwise reset the three device lists and re-gather them from
every network in order. -/
def Consolidate (s : PyState) (t : TopoCfgFrame) : Option String × TopoCfgFrame :=
  if t.Networks.length = 0 then
    (some "no networks given in TopoCfgFrame in Consolidate call", t)
  else
    let t0 : TopoCfgFrame := { t with Endpts := [], Routers := [], Switches := [] }
    (none, t.Networks.foldl (fun acc nid =>
      let acc1 := (getNet s nid).Routers.foldl (tAddRouter s) acc
      let acc2 := (getNet s nid).Endpts.foldl (tAddEndpt s) acc1
      (getNet s nid).Switches.foldl (tAddSwitch s) acc2) t0)

/-- Modelled from the spec (section 4.5): Consolidate recomputes the top-level
lists from scratch as the union, deduplicated by name, of every network's own
membership lists.  Same traversal as the source, with the dedup guard by name
only. -/
def specAddRouterByName (s : PyState) (t : TopoCfgFrame) (r : Nat) : TopoCfgFrame :=
  if t.Routers.any (fun st => devNm s st == devNm s r) then t
  else { t with Routers := t.Routers ++ [r] }

/-- Modelled from the spec (section 4.5): name-deduplicated endpoint insert. -/
def specAddEndptByName (s : PyState) (t : TopoCfgFrame) (e : Nat) : TopoCfgFrame :=
  if t.Endpts.any (fun st => devNm s st == devNm s e) then t
  else { t with Endpts := t.Endpts ++ [e] }

/-- Modelled from the spec (section 4.5): name-deduplicated switch insert. -/
def specAddSwitchByName (s : PyState) (t : TopoCfgFrame) (w : Nat) : TopoCfgFrame :=
  if t.Switches.any (fun st => devNm s st == devNm s w) then t
  else { t with Switches := t.Switches ++ [w] }

/-- Modelled from the spec (section 4.5): the consolidation as the spec words
it, failing on an empty topology and otherwise rebuilding the three lists from
scratch as the name-deduplicated union of the networks' membership lists. -/
def specConsolidateByName (s : PyState) (t : TopoCfgFrame) :
    Option String × TopoCfgFrame :=
  if t.Networks.length = 0 then
    (some "no networks given in TopoCfgFrame in Consolidate call", t)
  else
    let t0 : TopoCfgFrame := { t with Endpts := [], Routers := [], Switches := [] }
    (none, t.Networks.foldl (fun acc nid =>
      let acc1 := (getNet s nid).Routers.foldl (specAddRouterByName s) acc
      let acc2 := (getNet s nid).Endpts.foldl (specAddEndptByName s) acc1
      (getNet s nid).Switches.foldl (specAddSwitchByName s) acc2) t0)

/-- Concrete state for the idempotence witness: two endpoints h1 and h2, each
with one wired uncabled interface facing the wired network netA, both already
members of netA, nothing yet connected. -/
def c1s0 : PyState :=
  { numberOfIntrfcs := 2, numberOfRouters := 0, numberOfSwitches := 0,
    numberOfEndpts := 2,
    objTypeByName := [("h1", "Endpt"), ("h2", "Endpt"), ("netA", "Network")],
    devByName := [("h1", 0), ("h2", 1)], netByName := [("netA", 0)],
    rtrByName := [], devConnected := [],
    intrfcs := [
      { Name := "i0", Groups := [], DevType := "Endpt", MediaType := "wired",
        Device := "h1", Cable := none, Carry := [], Wireless := [], Faces := "netA" },
      { Name := "i1", Groups := [], DevType := "Endpt", MediaType := "wired",
        Device := "h2", Cable := none, Carry := [], Wireless := [], Faces := "netA" }],
    devs := [
      { kind := .Endpt, Name := "h1", Groups := [], Model := "m", Cores := 1,
        Interfaces := [0] },
      { kind := .Endpt, Name := "h2", Groups := [], Model := "m", Cores := 1,
        Interfaces := [1] }],
    nets := [
      { Name := "netA", Groups := [], NetScale := "LAN", MediaType := "wired",
        Routers := [], Endpts := [0, 1], Switches := [] }] }

/-- The state produced by the first (successful) ConnectDevs call on c1s0. -/
def c1s1 : PyState :=
  match ConnectDevs 0 1 true "netA" c1s0 with
  | .ok t => t
  | .error _ => c1s0

/-- Concrete state for the carry-repair claim: like c1s0, except that the
interface i1 of h2 already carries i0 while i0 carries nothing (the
one-directional carry relation of the scenario in the spec). -/
def c2s0 : PyState :=
  { c1s0 with intrfcs := [
      { Name := "i0", Groups := [], DevType := "Endpt", MediaType := "wired",
        Device := "h1", Cable := none, Carry := [], Wireless := [], Faces := "netA" },
      { Name := "i1", Groups := [], DevType := "Endpt", MediaType := "wired",
        Device := "h2", Cable := none, Carry := [0], Wireless := [], Faces := "netA" }] }

/-- The state produced by the carry-mode ConnectDevs call on c2s0. -/
def c2s1 : PyState :=
  match ConnectDevs 0 1 false "netA" c2s0 with
  | .ok t => t
  | .error _ => c2s0

/-- Concrete state for the cable-reuse scenario, built directly because the
source constructors themselves crash: endpoints h1 and h2 with no interfaces
yet, and the registered wired network netA. -/
def c3s0 : PyState :=
  { numberOfIntrfcs := 0, numberOfRouters := 0, numberOfSwitches := 0,
    numberOfEndpts := 2,
    objTypeByName := [("h1", "Endpt"), ("h2", "Endpt"), ("netA", "Network")],
    devByName := [("h1", 0), ("h2", 1)], netByName := [("netA", 0)],
    rtrByName := [], devConnected := [], intrfcs := [],
    devs := [
      { kind := .Endpt, Name := "h1", Groups := [], Model := "m", Cores := 1,
        Interfaces := [] },
      { kind := .Endpt, Name := "h2", Groups := [], Model := "m", Cores := 1,
        Interfaces := [] }],
    nets := [
      { Name := "netA", Groups := [], NetScale := "LAN", MediaType := "wired",
        Routers := [], Endpts := [], Switches := [] }] }

/-- Concrete state for the interface-constructor claim: one registered network
netA (and the two endpoints of c1s0). -/
def c5s0 : PyState := c1s0

/-- Concrete state for the AddSwitch claim: network netB already stores the
switch sw1; the switch sw2 has a wired interface facing netB and is not in the
list. -/
def c6s0 : PyState :=
  { numberOfIntrfcs := 1, numberOfRouters := 0, numberOfSwitches := 2,
    numberOfEndpts := 0,
    objTypeByName := [("sw1", "Switch"), ("sw2", "Switch"), ("netB", "Network")],
    devByName := [("sw1", 0), ("sw2", 1)], netByName := [("netB", 0)],
    rtrByName := [], devConnected := [],
    intrfcs := [
      { Name := "iw", Groups := [], DevType := "Switch", MediaType := "wired",
        Device := "sw2", Cable := none, Carry := [], Wireless := [], Faces := "netB" }],
    devs := [
      { kind := .Switch, Name := "sw1", Groups := [], Model := "m", Cores := 0,
        Interfaces := [] },
      { kind := .Switch, Name := "sw2", Groups := [], Model := "m", Cores := 0,
        Interfaces := [0] }],
    nets := [
      { Name := "netB", Groups := [], NetScale := "LAN", MediaType := "wired",
        Routers := [], Endpts := [], Switches := [0] }] }

/-- Concrete state for the media-mismatch claim: a wired network netB and an
endpoint h1 with no interfaces. -/
def c7s0 : PyState :=
  { numberOfIntrfcs := 0, numberOfRouters := 0, numberOfSwitches := 0,
    numberOfEndpts := 1,
    objTypeByName := [("h1", "Endpt"), ("netB", "Network")],
    devByName := [("h1", 0)], netByName := [("netB", 0)],
    rtrByName := [], devConnected := [],
    intrfcs := [],
    devs := [
      { kind := .Endpt, Name := "h1", Groups := [], Model := "m", Cores := 1,
        Interfaces := [] }],
    nets := [
      { Name := "netB", Groups := [], NetScale := "LAN", MediaType := "wired",
        Routers := [], Endpts := [], Switches := [] }] }

/-- Concrete state for the Transform claim: interface 0 is cabled to the
interface named ic, carries the interface named c1, and has the wireless peer
named w1. -/
def c8s : PyState :=
  { c7s0 with intrfcs := [
      { Name := "i0", Groups := ["g"], DevType := "Endpt", MediaType := "wired",
        Device := "h1", Cable := some 3, Carry := [1], Wireless := [2], Faces := "netA" },
      { Name := "c1", Groups := [], DevType := "Endpt", MediaType := "wired",
        Device := "h2", Cable := none, Carry := [], Wireless := [], Faces := "netA" },
      { Name := "w1", Groups := [], DevType := "Endpt", MediaType := "wireless",
        Device := "h3", Cable := none, Carry := [], Wireless := [], Faces := "netA" },
      { Name := "ic", Groups := [], DevType := "Endpt", MediaType := "wired",
        Device := "h4", Cable := some 0, Carry := [], Wireless := [], Faces := "netA" }] }

/-- Concrete state for the consolidation witness: two networks sharing members
across the membership lists. -/
def c9s : PyState :=
  { c6s0 with nets := [
      { Name := "n1", Groups := [], NetScale := "LAN", MediaType := "wired",
        Routers := [0], Endpts := [1], Switches := [] },
      { Name := "n2", Groups := [], NetScale := "LAN", MediaType := "wired",
        Routers := [0, 1], Endpts := [], Switches := [1] }] }

/-- Concrete topology frame for the consolidation witness, with stale entries
in the three device lists. -/
def t9 : TopoCfgFrame :=
  { Name := "top", Endpts := [9], Networks := [0, 1], Routers := [9], Switches := [9] }

/-- Concrete state for the router half of the interface-constructor claim: a
registered router r1 and a registered wired network netR, built directly. -/
def c5r : PyState :=
  { numberOfIntrfcs := 0, numberOfRouters := 1, numberOfSwitches := 0,
    numberOfEndpts := 0,
    objTypeByName := [("r1", "Router"), ("netR", "Network")],
    devByName := [("r1", 0)], netByName := [("netR", 0)],
    rtrByName := [("r1", 0)], devConnected := [], intrfcs := [],
    devs := [
      { kind := .Router, Name := "r1", Groups := [], Model := "m", Cores := 0,
        Interfaces := [] }],
    nets := [
      { Name := "netR", Groups := [], NetScale := "LAN", MediaType := "wired",
        Routers := [], Endpts := [], Switches := [] }] }

/-- Concrete registry state for the name-registration claim: the name A is
already bound in objTypeByName and devByName to the endpoint frame 0. -/
def c4reg : PyState :=
  { emptyState with
      objTypeByName := [("A", "Endpt")], devByName := [("A", 0)],
      devs := [
        { kind := .Endpt, Name := "A", Groups := [], Model := "m", Cores := 1,
          Interfaces := [] }] }

/-- State evolution invariant for the idempotence proof: the devConnected
index and every device name are unchanged. -/
def Pres (s t : PyState) : Prop :=
  t.devConnected = s.devConnected ∧ ∀ j, devNm t j = devNm s j

theorem presRefl (s : PyState) : Pres s s := ⟨rfl, fun _ => rfl⟩

theorem presTrans {s t u : PyState} (h1 : Pres s t) (h2 : Pres t u) : Pres s u :=
  ⟨h2.1.trans h1.1, fun j => (h2.2 j).trans (h1.2 j)⟩

theorem lookupA_setA_self {α : Type} (k : String) (v : α) (l : List (String × α)) :
    lookupA k (setA k v l) = some v := by
  induction l with
  | nil => simp [setA, lookupA]
  | cons p t ih =>
    obtain ⟨k1, v1⟩ := p
    by_cases h : k1 = k
    · subst h; simp [setA, lookupA]
    · simp [setA, lookupA, h, ih]

theorem lookupA_setA_ne {α : Type} (k k1 : String) (hk : k ≠ k1) (v : α)
    (l : List (String × α)) : lookupA k1 (setA k v l) = lookupA k1 l := by
  induction l with
  | nil => simp [setA, lookupA, hk]
  | cons p t ih =>
    obtain ⟨k2, v2⟩ := p
    by_cases h : k2 = k
    · subst h; simp [setA, lookupA, hk]
    · simp [setA, lookupA, h, ih]

theorem hget_append_len {α : Type} (l : List α) (x d : α) :
    hget (l ++ [x]) l.length d = x := by
  induction l with
  | nil => rfl
  | cons y t ih => exact ih

theorem hget_hset_name (f : DevFrame → DevFrame) (hf : ∀ x, (f x).Name = x.Name) :
    ∀ (l : List DevFrame) (i j : Nat),
      (hget (hset l i f) j dfltDev).Name = (hget l j dfltDev).Name := by
  intro l
  induction l with
  | nil => intro i j; rfl
  | cons x t ih =>
    intro i j
    cases i with
    | zero =>
      cases j with
      | zero => exact hf x
      | succ j => rfl
    | succ i =>
      cases j with
      | zero => rfl
      | succ j => exact ih i j

theorem pres_updIntrfc (s : PyState) (i : Nat) (f : IntrfcFrame → IntrfcFrame) :
    Pres s (updIntrfc s i f) := ⟨rfl, fun _ => rfl⟩

theorem pres_updNet (s : PyState) (i : Nat) (f : NetworkFrame → NetworkFrame) :
    Pres s (updNet s i f) := ⟨rfl, fun _ => rfl⟩

theorem pres_updDev (s : PyState) (i : Nat) (f : DevFrame → DevFrame)
    (hf : ∀ x, (f x).Name = x.Name) : Pres s (updDev s i f) :=
  ⟨rfl, fun j => hget_hset_name f hf s.devs i j⟩

theorem markConnected_devs (a b : String) (s : PyState) :
    (markConnected a b s).devs = s.devs := by
  unfold markConnected; split <;> rfl

theorem isConnected_markConnected (a b : String) (s : PyState) :
    isConnected a b (markConnected a b s).devConnected = true := by
  unfold markConnected
  split
  · assumption
  · by_cases hab : b = a
    · subst hab
      simp only [isConnected, lookupA_setA_self]
      simp [List.any_append]
    · simp only [isConnected, lookupA_setA_ne b a hab, lookupA_setA_self]
      simp [List.any_append]

theorem createIntrfc_pres (device name devType mediaType faces : String)
    (s t : PyState) (iid : Nat)
    (h : CreateIntrfc device name devType mediaType faces s = .ok (t, iid)) :
    Pres s t := by
  simp only [CreateIntrfc] at h
  cases h

theorem includeAttach_pres (s1 : PyState) (netId devId : Nat) (devType : String)
    (intrfc : Option Nat) (t : PyState) (e : Option String)
    (h : includeAttach s1 netId devId devType intrfc = .ok (t, e)) : Pres s1 t := by
  simp only [includeAttach] at h
  repeat' split at h
  all_goals cases h
  all_goals
    first
      | exact presRefl _
      | exact pres_updNet _ _ _
      | (refine pres_updDev _ _ _ ?_; exact fun x => rfl)
      | (refine presTrans (pres_updDev _ _ _ ?_) (pres_updNet _ _ _); exact fun x => rfl)

theorem includeDev_pres (s : PyState) (netId devId : Nat) (mt : String)
    (chk : Bool) (t : PyState) (e : Option String)
    (h : IncludeDev s netId devId mt chk = .ok (t, e)) : Pres s t := by
  simp only [IncludeDev] at h
  split at h
  · cases h; exact presRefl s
  · split at h
    · split at h
      · cases h
      · rename_i s1 iid heq
        exact presTrans (createIntrfc_pres _ _ _ _ _ _ _ _ heq)
          (includeAttach_pres _ _ _ _ _ _ _ h)
    · exact includeAttach_pres _ _ _ _ _ _ _ h

theorem devAddIntrfc_pres (s : PyState) (d iid : Nat) :
    Pres s (devAddIntrfc s d iid) := by
  unfold devAddIntrfc
  split
  · split
    · exact presRefl s
    · refine presTrans (pres_updIntrfc _ _ _) (pres_updDev _ _ _ ?_)
      exact fun x => rfl
  · exact presRefl s

theorem linkFree_pres (cable : Bool) (s : PyState) (f1 f2 : Nat) :
    Pres s (linkFree cable s f1 f2) := by
  unfold linkFree
  split
  · exact presTrans (pres_updIntrfc _ _ _) (pres_updIntrfc _ _ _)
  · exact presTrans (pres_updIntrfc _ _ _) (pres_updIntrfc _ _ _)

theorem freePhase2_pres (d2 : Nat) (cable : Bool) (faces : String)
    (pool2 : List Nat) (s : PyState) (f1 : Nat) (t : PyState)
    (h : freePhase2 d2 cable faces pool2 s f1 = .ok t) : Pres s t := by
  unfold freePhase2 at h
  split at h
  · cases h; exact linkFree_pres _ _ _ _
  · split at h
    · cases h
    · rename_i s1 f2 heq
      cases h
      exact presTrans (createIntrfc_pres _ _ _ _ _ _ _ _ heq)
        (presTrans (devAddIntrfc_pres _ _ _) (linkFree_pres _ _ _ _))

theorem freePhase_pres (d1 d2 : Nat) (cable : Bool) (faces : String)
    (pool1 pool2 : List Nat) (s : PyState) (t : PyState)
    (h : freePhase d1 d2 cable faces pool1 pool2 s = .ok t) : Pres s t := by
  unfold freePhase at h
  split at h
  · exact freePhase2_pres _ _ _ _ _ _ _ h
  · split at h
    · cases h
    · rename_i s1 f1 heq
      exact presTrans (createIntrfc_pres _ _ _ _ _ _ _ _ heq)
        (presTrans (devAddIntrfc_pres _ _ _) (freePhase2_pres _ _ _ _ _ _ _ h))

theorem carryScanInner_pres (s : PyState) (i1 : Nat) :
    ∀ (p2 : List Nat) (t : PyState), carryScanInner s i1 p2 = some t → Pres s t := by
  intro p2
  induction p2 with
  | nil => intro t h; cases h
  | cons i2 rest ih =>
    intro t h
    unfold carryScanInner at h
    split at h
    · cases h; exact pres_updIntrfc _ _ _
    · split at h
      · cases h; exact pres_updIntrfc _ _ _
      · exact ih t h

theorem carryScan_pres (s : PyState) :
    ∀ (p1 p2 : List Nat) (t : PyState), carryScan s p1 p2 = some t → Pres s t := by
  intro p1
  induction p1 with
  | nil => intro p2 t h; cases h
  | cons i1 rest ih =>
    intro p2 t h
    unfold carryScan at h
    split at h
    · rename_i t1 heq
      cases h
      exact carryScanInner_pres _ _ _ _ heq
    · exact ih p2 t h

theorem connectBody_pres (d1 d2 : Nat) (cable : Bool) (faces : String)
    (s t : PyState) (h : connectBody d1 d2 cable faces s = .ok t) : Pres s t := by
  unfold connectBody at h
  split at h
  · cases h
  · split at h
    · cases h
    · rename_i s1 e1 heq1
      split at h
      · cases h
      · rename_i s2 e2 heq2
        refine presTrans (includeDev_pres _ _ _ _ _ _ _ heq1)
          (presTrans (includeDev_pres _ _ _ _ _ _ _ heq2) ?_)
        dsimp only at h
        split at h
        · split at h
          · cases h
            exact presTrans (pres_updIntrfc _ _ _) (pres_updIntrfc _ _ _)
          · exact freePhase_pres _ _ _ _ _ _ _ _ h
        · split at h
          · rename_i s3 heq3
            cases h
            exact carryScan_pres _ _ _ _ heq3
          · exact freePhase_pres _ _ _ _ _ _ _ _ h

theorem markConnected_devNm (a b : String) (s : PyState) (j : Nat) :
    devNm (markConnected a b s) j = devNm s j := by
  unfold devNm getDev
  rw [markConnected_devs]

/-- Claim C1: for any devices, cable flag and network, a second ConnectDevs
call with the same arguments on the state produced by a completed first call
returns that state unchanged, because the pairwise-connectivity index already
marks the pair connected. -/
theorem connectDevs_idempotent (d1 d2 : Nat) (cable : Bool) (faces : String)
    (s t : PyState) (h : ConnectDevs d1 d2 cable faces s = .ok t) :
    ConnectDevs d1 d2 cable faces t = .ok t ∧
    isConnected (devNm t d1) (devNm t d2) t.devConnected = true := by
  unfold ConnectDevs at h
  split at h
  · rename_i hc
    cases h
    unfold ConnectDevs
    rw [if_pos hc]
    exact ⟨rfl, hc⟩
  · rename_i hc
    have hp : Pres (markConnected (devNm s d1) (devNm s d2) s) t :=
      connectBody_pres _ _ _ _ _ _ h
    have h1 : devNm t d1 = devNm s d1 :=
      (hp.2 d1).trans (markConnected_devNm _ _ _ _)
    have h2 : devNm t d2 = devNm s d2 :=
      (hp.2 d2).trans (markConnected_devNm _ _ _ _)
    have hic : isConnected (devNm t d1) (devNm t d2) t.devConnected = true := by
      rw [h1, h2, hp.1]
      exact isConnected_markConnected _ _ s
    refine ⟨?_, hic⟩
    unfold ConnectDevs
    rw [if_pos hic]

/-- Witness for claim C1: the idempotence theorem applied to the concrete
two-endpoint cable connection on c1s0, whose first call succeeds. -/
theorem connectDevs_idempotent_witness :
    ConnectDevs 0 1 true "netA" c1s1 = .ok c1s1 ∧
    isConnected (devNm c1s1 0) (devNm c1s1 1) c1s1.devConnected = true :=
  connectDevs_idempotent 0 1 true "netA" c1s0 c1s1 rfl

/-- Claim C2 (code bug): on the asymmetric carry state c2s0, where interface 1
already carries interface 0 and not conversely, the carry path of ConnectDevs
appends interface 0 to the Carry list of interface 1 again, duplicating the
existing entry and leaving the missing reciprocal direction absent. -/
theorem connectDevs_carry_asym_bug :
    ConnectDevs 0 1 false "netA" c2s0 = .ok c2s1 ∧
    (getIntrfc c2s0 1).Carry = [0] ∧
    (getIntrfc c2s0 0).Carry = [] ∧
    (getIntrfc c2s1 1).Carry = [0, 0] ∧
    (getIntrfc c2s1 0).Carry = [] :=
  ⟨rfl, rfl, rfl, rfl, rfl⟩

/-- Claim C3 (code bug): the cable-reuse scenario cannot even start, because
CreateEndpt raises TypeError at the instantiation of the abstract
EndptFrameClass; and even on a directly built state holding the two fresh
endpoints and the wired network netA, the first cable-mode ConnectDevs call
raises UnboundLocalError on the counter numberOfIntrfcs inside CreateIntrfc,
so no interface is ever created on either endpoint. -/
theorem connectDevs_fresh_endpoints_crash :
    CreateEndpt "h1" "t" "m" 1 emptyState = .error (.typeError "EndptFrameClass") ∧
    ConnectDevs 0 1 true "netA" c3s0 = .error (.unboundLocal "numberOfIntrfcs") ∧
    (getDev c3s0 0).Interfaces = [] ∧
    (getDev c3s0 1).Interfaces = [] :=
  ⟨rfl, rfl, rfl, rfl⟩

/-- Claim C4 counterexample: with the name A already registered, CreateEndpt
does not fail with a duplicate-name error: it raises the TypeError of
instantiating the abstract EndptFrameClass, before the registry is even
consulted — the very same failure it produces for the fresh name B on the
same state. -/
theorem createEndpt_no_duplicate_check :
    CreateEndpt "A" "t" "m" 1 c4reg = .error (.typeError "EndptFrameClass") ∧
    CreateEndpt "B" "t" "m" 1 c4reg = .error (.typeError "EndptFrameClass") ∧
    lookupA "A" c4reg.devByName = some 0 :=
  ⟨rfl, rfl, rfl⟩

/-- Claim C4 as amended: no constructor ever reaches its registry assignments —
CreateEndpt, CreateSwitch and CreateNetwork fail with a TypeError at the
instantiation of their abstract frame classes, and CreateRouter with an
UnboundLocalError on its counter — so for every input state and every name the
call fails with an error fixed before the name is examined, and the registry
maps are never written by a constructor. -/
theorem register_never_reached (s : PyState) (name etype model ns mt : String)
    (cores : Nat) :
    CreateEndpt name etype model cores s = .error (.typeError "EndptFrameClass") ∧
    CreateRouter name model s = .error (.unboundLocal "numberOfRouters") ∧
    CreateSwitch name model s = .error (.typeError "SwitchFrameClass") ∧
    CreateNetwork name ns mt s = .error (.typeError "NetworkFrameClass") :=
  ⟨rfl, rfl, rfl, rfl⟩

/-- Claim C5 (code bug): CreateIntrfc raises UnboundLocalError on the counter
numberOfIntrfcs — for an endpoint device and for a router device alike —
before the interface frame is even filled in, so neither the claimed Router
membership append nor the non-Router return of a new interface can occur. -/
theorem createIntrfc_counter_crash :
    CreateIntrfc "h1" "i9" "Endpt" "wired" "netA" c5s0
      = .error (.unboundLocal "numberOfIntrfcs") ∧
    CreateIntrfc "r1" "ir" "Router" "wired" "netR" c5r
      = .error (.unboundLocal "numberOfIntrfcs") ∧
    (getNet c5r 0).Routers = [] :=
  ⟨rfl, rfl, rfl⟩

/-- Claim C6 (code bug): sw2 faces netB and is absent from netB's Switches
list by name, yet AddSwitch returns no error and leaves the list unchanged,
because the shadowed loop guard marks any nonempty list as found. -/
theorem addSwitch_shadowing_bug :
    AddSwitch c6s0 0 1 = (c6s0, none) ∧
    FacedBy c6s0 0 1 = true ∧
    (getNet c6s0 0).Switches = [0] ∧
    devNm c6s0 0 = "sw1" ∧
    devNm c6s0 1 = "sw2" :=
  ⟨rfl, rfl, rfl, rfl, rfl⟩

/-- Claim C7 (code bug): on the wired network netB, a wireless IncludeDev is
rejected with the media-mismatch error string and no mutation, but a wired
IncludeDev of a fresh endpoint does not succeed: it raises UnboundLocalError
on the counter numberOfIntrfcs inside CreateIntrfc. -/
theorem includeDev_wired_crash :
    IncludeDev c7s0 0 0 "wireless" true =
      .ok (c7s0, some "including a wireless device in a wired network") ∧
    (getNet c7s0 0).MediaType = "wired" ∧
    IncludeDev c7s0 0 0 "wired" true = .error (.unboundLocal "numberOfIntrfcs") :=
  ⟨rfl, rfl, rfl⟩

/-- Claim C8 (code bug): Transform replaces the Cable reference by the peer
interface's name, but the Carry and Wireless lists of the descriptor receive
the peer interface references themselves, not their name strings. -/
theorem transform_carry_refs_bug :
    IntrfcFrame.Transform c8s 0 =
      { Name := "i0", Groups := ["g"], DevType := "Endpt", MediaType := "wired",
        Device := "h1", Cable := some "ic", Carry := [DescEntry.ref 1],
        Wireless := [DescEntry.ref 2], Faces := "netA" } ∧
    (getIntrfc c8s 1).Name = "c1" ∧
    DescEntry.ref 1 ≠ DescEntry.name "c1" := by
  refine ⟨rfl, rfl, ?_⟩
  decide

theorem any_guard_collapse (s : PyState) (r : Nat) (l : List Nat) :
    (l.any (fun st => st == r || devNm s st == devNm s r))
      = l.any (fun st => devNm s st == devNm s r) := by
  induction l with
  | nil => rfl
  | cons a t ih =>
    simp only [List.any_cons, ih]
    cases h : a == r with
    | false => rw [Bool.false_or]
    | true =>
      have ha : a = r := eq_of_beq h
      subst ha
      simp

theorem tAddRouter_eq_spec (s : PyState) : tAddRouter s = specAddRouterByName s := by
  funext t r
  unfold tAddRouter specAddRouterByName
  rw [any_guard_collapse]

theorem tAddEndpt_eq_spec (s : PyState) : tAddEndpt s = specAddEndptByName s := by
  funext t e
  unfold tAddEndpt specAddEndptByName
  rw [any_guard_collapse]

theorem tAddSwitch_eq_spec (s : PyState) : tAddSwitch s = specAddSwitchByName s := by
  funext t w
  unfold tAddSwitch specAddSwitchByName
  rw [any_guard_collapse]

/-- Claim C9: Consolidate fails on a topology with zero networks and leaves
the three device lists untouched; on a nonempty Networks list it succeeds and
rebuilds the lists from scratch as the name-deduplicated union of the
networks' membership lists (the spec-modelled specConsolidateByName). -/
theorem consolidate_matches_spec (s : PyState) (t : TopoCfgFrame) :
    Consolidate s t = specConsolidateByName s t ∧
    (t.Networks = [] → Consolidate s t =
      (some "no networks given in TopoCfgFrame in Consolidate call", t)) ∧
    (t.Networks ≠ [] → (Consolidate s t).1 = none) := by
  refine ⟨?_, ?_, ?_⟩
  · unfold Consolidate specConsolidateByName
    rw [tAddRouter_eq_spec, tAddEndpt_eq_spec, tAddSwitch_eq_spec]
  · intro h
    simp [Consolidate, h]
  · intro h
    have hl : ¬ t.Networks.length = 0 := by
      simpa [List.length_eq_zero] using h
    simp [Consolidate, hl]

/-- Witness for claim C9: the consolidation theorem applied to the concrete
two-network state c9s, in both the nonempty and the empty case. -/
theorem consolidate_matches_spec_witness :
    (Consolidate c9s t9).1 = none ∧
    Consolidate c9s { t9 with Networks := [] } =
      (some "no networks given in TopoCfgFrame in Consolidate call",
        { t9 with Networks := [] }) :=
  ⟨(consolidate_matches_spec c9s t9).2.2 (by decide),
   (consolidate_matches_spec c9s { t9 with Networks := [] }).2.1 rfl⟩

/-- Claim C10: adding a group name that is not yet in a network frame's group
list leaves the list unchanged (the guard of AddGroup is inverted), so from
any network frame whose Groups list is empty — as the field initializer of
NetworkFrameClass sets it — no sequence of AddGroup calls ever makes the
Groups list nonempty. -/
theorem addGroup_inverted_noop :
    (∀ (n : NetworkFrame) (g : String), g ∉ n.Groups → NetworkFrame.AddGroup n g = n) ∧
    (∀ (n : NetworkFrame), n.Groups = [] →
      ∀ (gs : List String), (gs.foldl NetworkFrame.AddGroup n).Groups = []) := by
  constructor
  · intro n g hg
    unfold NetworkFrame.AddGroup
    rw [if_neg hg]
  · intro n hbase gs
    induction gs generalizing n with
    | nil => exact hbase
    | cons g rest ih =>
      have hstep : NetworkFrame.AddGroup n g = n := by
        unfold NetworkFrame.AddGroup
        rw [if_neg (by rw [hbase]; exact List.not_mem_nil g)]
      rw [List.foldl_cons, hstep]
      exact ih n hbase

/-- Witness for claim C10: both halves of the AddGroup theorem applied to
concrete inputs with an empty group list. -/
theorem addGroup_inverted_noop_witness :
    NetworkFrame.AddGroup dfltNet "g" = dfltNet ∧
    (["a", "b", "a"].foldl NetworkFrame.AddGroup dfltNet).Groups = [] :=
  ⟨addGroup_inverted_noop.1 dfltNet "g" (by decide),
   addGroup_inverted_noop.2 dfltNet rfl ["a", "b", "a"]⟩
